import Mathlib

/-!
Shallow embedding of the TurboFlow mean-line axial-turbine analyzer,
covering the choking sub-solver (Modes A, B, C), the deviation models,
the Benner loss model aggregation, the cascade exit/interspace relations,
the blockage model, and the operating-point driver's warm-start cache.

Conventions: exact real-number arithmetic stands in for IEEE floats.
Purely algebraic components (Lagrange-multiplier algebra, the Mode B
surrogate polynomials, the loss aggregation, the driver's cached vectors)
are modelled over `ℚ`, so their evaluations are decidable; components
built on trigonometric functions, square roots and fractional powers are
modelled over `ℝ`.
-/

namespace TurboFlow

/-! ## Mode A Lagrange-multiplier algebra

`choking_model.evaluate_cascade_critical` (axial_turbine) and
`cascade_series.evaluate_cascade_critical` (meanline) both approximate the
3x3 Jacobian `J` of `[f; g1; g2]` with respect to `(v_in, w_throat,
s_throat)` by finite differences and then reduce the Lagrangian
stationarity conditions algebraically.  The reduction is a pure function
of the Jacobian entries and the reference mass flow, embedded here. -/

/-- A 3x3 Jacobian of `[f; g1; g2]` w.r.t. `(x1, x2, x3)`: row 0 is `f`
(mass flow), rows 1 and 2 are the constraints `g1` (mass balance) and
`g2` (loss closure). -/
structure Jacobian3 where
  j00 : ℚ
  j01 : ℚ
  j02 : ℚ
  j10 : ℚ
  j11 : ℚ
  j12 : ℚ
  j20 : ℚ
  j21 : ℚ
  j22 : ℚ

/-- Embeds `a11 = dg1/dx1` as renamed in both sources (`J[1, 0]`). -/
def a11 (J : Jacobian3) : ℚ := J.j10

/-- Embeds `a12 = dg2/dx1` (`J[2, 0]`). -/
def a12 (J : Jacobian3) : ℚ := J.j20

/-- Embeds `a21 = dg1/dx3` (`J[1, 1 + 1]`). -/
def a21 (J : Jacobian3) : ℚ := J.j12

/-- Embeds `a22 = dg2/dx3` (`J[2, 1 + 1]`). -/
def a22 (J : Jacobian3) : ℚ := J.j22

/-- Embeds `b1 = -df/dx1` (`-1 * J[0, 0]`). -/
def b1 (J : Jacobian3) : ℚ := -1 * J.j00

/-- Embeds `b2 = -df/dx3` (`-1 * J[0, 1 + 1]`). -/
def b2 (J : Jacobian3) : ℚ := -1 * J.j02

/-- The 2x2 block determinant `a11 * a22 - a12 * a21`
(`choking_model.evaluate_cascade_critical`, line `determinant = ...`). -/
def determinant (J : Jacobian3) : ℚ := a11 J * a22 J - a12 J * a21 J

/-- Cramer numerator for the first multiplier, `l1_det = a22*b1 - a12*b2`. -/
def l1_det (J : Jacobian3) : ℚ := a22 J * b1 J - a12 J * b2 J

/-- Cramer numerator for the second multiplier, `l2_det = a11*b2 - a21*b1`. -/
def l2_det (J : Jacobian3) : ℚ := a11 J * b2 J - a21 J * b1 J

/-- Embeds `df = J[0, 2 - 1]`, the middle-column entry of the `f` row. -/
def dfMid (J : Jacobian3) : ℚ := J.j01

/-- Embeds `dg1 = J[1, 2 - 1]`. -/
def dg1Mid (J : Jacobian3) : ℚ := J.j11

/-- Embeds `dg2 = J[2, 2 - 1]`. -/
def dg2Mid (J : Jacobian3) : ℚ := J.j21

/-- Determinant-multiplied Lagrangian residual of the axial_turbine Mode A:
`grad = (determinant*df + l1_det * dg1 + l2_det * dg2) / mass_flow_ref`
(`choking_model.evaluate_cascade_critical`). -/
def gradAxial (J : Jacobian3) (mass_flow_ref : ℚ) : ℚ :=
  (determinant J * dfMid J + l1_det J * dg1Mid J + l2_det J * dg2Mid J) / mass_flow_ref

/-- Division-form Lagrangian residual of the meanline Mode A
(`cascade_series.evaluate_cascade_critical`): the multipliers divide the
Cramer numerators by the determinant **plus the guard** `eps = 1e-9`, and
`grad = (df + l1 * dg1 + l2 * dg2) / mass_flow_ref`. -/
def gradMeanline (J : Jacobian3) (mass_flow_ref : ℚ) : ℚ :=
  let eps : ℚ := 1e-9
  let l1 := l1_det J / (determinant J + eps)
  let l2 := l2_det J / (determinant J + eps)
  (dfMid J + l1 * dg1Mid J + l2 * dg2Mid J) / mass_flow_ref

/-- Modelled from the spec: the division-form residual as the spec words
it — "`λ₁, λ₂` (Cramer's rule on the 2×2 block)", i.e. the Cramer
numerators divided by the exact determinant with no guard.  Kept separate
from `gradMeanline`, which embeds the actual meanline source (guarded by
`+ 1e-9`). -/
def gradDivisionSpec (J : Jacobian3) (mass_flow_ref : ℚ) : ℚ :=
  let l1 := l1_det J / determinant J
  let l2 := l2_det J / determinant J
  (dfMid J + l1 * dg1Mid J + l2 * dg2Mid J) / mass_flow_ref

/-- Concrete Jacobian exercising the `+ 1e-9` guard: the determinant is 1,
the determinant-multiplied residual vanishes, the guarded division-form
residual does not. -/
def Jc2 : Jacobian3 :=
  { j00 := -1, j01 := 1, j02 := 0
    j10 := 1,  j11 := -1, j12 := 0
    j20 := 0,  j21 := 0, j22 := 1 }

/-! ## Mode B surrogate (`choking_model.interpolate_critical_state`) -/

/-- Quadratic-basis vector `x = [1, p0, T0, Y, p0², T0², Y², p0*T0, p0*Y, T0*Y]`. -/
def criticalBasis (p0_in T0_in Y : ℚ) : List ℚ :=
  [1, p0_in, T0_in, Y, p0_in ^ 2, T0_in ^ 2, Y ^ 2, p0_in * T0_in, p0_in * Y, T0_in * Y]

/-- Surrogate coefficients for the critical Mach number
(`coeff_mach_crit` in `choking_model.interpolate_critical_state`). -/
def coeff_mach_crit : List ℚ :=
  [9.97808878e-1, -8.59556818e-9, 2.18283101e-5, -3.38413836e-1,
   -4.89469816e-14, -5.99021408e-8, 9.93519991e-2, 7.71201115e-11,
   -4.13346725e-9, 4.91317761e-6]

/-- Surrogate coefficients for the maximum mass flux
(`coeff_phi_max` in `choking_model.interpolate_critical_state`). -/
def coeff_phi_max : List ℚ :=
  [9.81120337e1, 3.46299580e-3, -6.34357717e-1, -6.84234362e1,
   1.05506996e-11, 1.04045797e-3, 3.36231786e1, -3.81019918e-6,
   -6.90348074e-4, 1.26692586e-1]

/-- Embeds `choking_model.interpolate_critical_state`: evaluates the two fixed
second-order polynomials and returns `(phi_max, mach_crit)`, in that
order, exactly as the source does. -/
def interpolate_critical_state (p0_in T0_in Y : ℚ) : ℚ × ℚ :=
  let x := criticalBasis p0_in T0_in Y
  let mach_crit := (List.zipWith (· * ·) x coeff_mach_crit).sum
  let phi_max := (List.zipWith (· * ·) x coeff_phi_max).sum
  (phi_max, mach_crit)

/-- Critical state reported by a cascade (per-cascade derived result). -/
structure CriticalThroatState where
  Ma_rel : ℚ
  mass_flow : ℚ

/-- Critical-state fragment of Mode B (`choking_model.evaluate_cascade_throat`,
the `critical_state` construction): given the inlet relative stagnation
pair `(p0_rel, T0_rel)` and the total loss `Y_tot` of the throat loss
dictionary, the reported state is
`{Ma_rel: critical_mach, mass_flow: critical_mass_flux * A_throat}`. -/
def evaluate_cascade_throat_critical_state
    (p0_rel T0_rel Y_tot A_throat : ℚ) : CriticalThroatState :=
  let r := interpolate_critical_state p0_rel T0_rel Y_tot
  { Ma_rel := r.2, mass_flow := r.1 * A_throat }

/-! ## Benner loss model aggregation (`loss_model_benner.compute_losses`)

The five correlation sub-functions (`get_profile_loss`, ...) are complex
closed-form correlations whose values do not matter for the additivity
claim; `compute_losses` is embedded as a function of their results and of
the penetration-depth fraction `ZTE`, mirroring the aggregation code
line by line. -/

/-- Loss decomposition dictionary returned by the Benner model. -/
structure LossBreakdown where
  loss_profile : ℚ
  loss_incidence : ℚ
  loss_trailing : ℚ
  loss_secondary : ℚ
  loss_clearance : ℚ
  loss_total : ℚ

/-- Embeds `loss_model_benner.compute_losses`, as a function of the values
returned by the five correlation sub-functions (`Y_p`, `Y_te`, `Y_s`,
`Y_cl`, `Y_inc`) and by `get_penetration_depth` (`ZTE`): profile,
trailing and incidence losses are multiplied by `(1 - ZTE)` before the
dictionary is assembled, and the total is the sum of the five stored
components. -/
def compute_losses (Y_p Y_te Y_s Y_cl Y_inc ZTE : ℚ) : LossBreakdown :=
  let Yp := Y_p * (1 - ZTE)
  let Yte := Y_te * (1 - ZTE)
  let Yinc := Y_inc * (1 - ZTE)
  { loss_profile := Yp
    loss_incidence := Yinc
    loss_trailing := Yte
    loss_secondary := Y_s
    loss_clearance := Y_cl
    loss_total := Yp + Yte + Yinc + Y_s + Y_cl }

/-! ## Degree-valued trigonometric helpers

Modelled from the spec: the repository's `meanline_axial/math` module
(imported as `from .. import math` by every flow component) is not under
`src/`; §9 of the spec fixes its contract — "angles are in degrees at the
interface with geometry and deviation models; all trigonometric helpers
take/return degrees". -/

/-- Modelled from the spec: cosine of an angle given in degrees. -/
noncomputable def cosd (x : ℝ) : ℝ := Real.cos (x * (Real.pi / 180))

/-- Modelled from the spec: sine of an angle given in degrees. -/
noncomputable def sind (x : ℝ) : ℝ := Real.sin (x * (Real.pi / 180))

/-- Modelled from the spec: arc cosine returning degrees. -/
noncomputable def arccosd (x : ℝ) : ℝ := Real.arccos x * (180 / Real.pi)

/-- Modelled from the spec: arc sine returning degrees. -/
noncomputable def arcsind (x : ℝ) : ℝ := Real.arcsin x * (180 / Real.pi)

/-- Modelled from the spec: arc tangent returning degrees. -/
noncomputable def arctand (x : ℝ) : ℝ := Real.arctan x * (180 / Real.pi)

/-! ## Deviation models

The numpy sources fill `delta = np.empty_like(Ma_exit)` by boolean masks
written in the order low-speed, medium-speed, supersonic (last write
wins); a scalar cell matched by no mask keeps the **uninitialized**
contents of `np.empty_like`, modelled by the extra `junk` argument.  The
`if`-chains below test the masks in reverse write order, which reproduces
the last-write-wins semantics exactly. -/

namespace axial_turbine

/-- Embeds `axial_turbine/deviation_model.get_exit_flow_angle_aungier`.
Geometry dictionary flattened to `A_throat`, `A_out`.  Masks:
`Ma_exit < 0.5` low-speed; `0.5 <= Ma_exit < Ma_crit` polynomial blend;
`Ma_exit >= Ma_crit` zero deviation.  The three masks cover every real
`Ma_exit` whenever they are written in this order, so `junk` is
unreachable here. -/
noncomputable def get_exit_flow_angle_aungier
    (junk Ma_exit Ma_crit A_throat A_out : ℝ) : ℝ :=
  let gauging_angle := arccosd (A_throat / A_out)
  let beta_g := 90 - |gauging_angle|
  let delta_0 := arcsind (A_throat / A_out *
    (1 + (1 - A_throat / A_out) * (beta_g / 90) ^ 2)) - beta_g
  let X := (2 * Ma_exit - 1) / (2 * Ma_crit - 1)
  let delta : ℝ :=
    if Ma_crit ≤ Ma_exit then 0
    else if 0.5 ≤ Ma_exit ∧ Ma_exit < Ma_crit then
      delta_0 * (1 - 10 * X ^ 3 + 15 * X ^ 4 - 6 * X ^ 5)
    else if Ma_exit < 0.5 then delta_0
    else junk
  gauging_angle - delta

/-- Embeds `axial_turbine/deviation_model.get_exit_flow_angle_ainley_mathieson`.
Masks: `Ma_exit < 0.5` low-speed; `0.5 <= Ma_exit < Ma_crit` **linear**
interpolation; `Ma_exit >= 1.00` zero deviation.  For
`Ma_crit <= Ma_exit < 1` no mask matches and the uninitialized cell
(`junk`) is returned inside `|gauging_angle| - delta`. -/
noncomputable def get_exit_flow_angle_ainley_mathieson
    (junk Ma_exit Ma_crit A_throat A_out : ℝ) : ℝ :=
  let gauging_angle := arccosd (A_throat / A_out)
  let delta_0 := |gauging_angle| -
    (35.0 + (80.0 - 35.0) / (79.0 - 40.0) * (|gauging_angle| - 40.0))
  let delta : ℝ :=
    if 1 ≤ Ma_exit then 0
    else if 0.5 ≤ Ma_exit ∧ Ma_exit < Ma_crit then
      delta_0 * (1 + (0.5 - Ma_exit) / (Ma_crit - 0.5))
    else if Ma_exit < 0.5 then delta_0
    else junk
  |gauging_angle| - delta

/-- Embeds `axial_turbine/deviation_model.get_exit_flow_angle_zero_deviation`. -/
noncomputable def get_exit_flow_angle_zero_deviation
    (Ma_exit Ma_crit A_throat A_out : ℝ) : ℝ :=
  arccosd (A_throat / A_out)

end axial_turbine

namespace meanline

/-- Embeds `meanline/deviation_model.get_exit_flow_angle_ainley_mathieson`.
The gauging angle here is `geometry["metal_angle_te"]`.  Masks:
`Ma_exit < 0.5` low-speed; `0.5 <= Ma_exit < 1.00` **fifth-order
polynomial** blend with `X = (2 Ma - 1)/(2 Ma_crit_exit - 1)`;
`Ma_exit >= 1.00` zero deviation.  The masks cover every real `Ma_exit`,
so `junk` is unreachable here; `Ma_crit_throat` is accepted and unused,
as in the source. -/
noncomputable def get_exit_flow_angle_ainley_mathieson
    (junk Ma_exit Ma_crit_throat Ma_crit_exit metal_angle_te : ℝ) : ℝ :=
  let gauging_angle := metal_angle_te
  let delta_0 := |gauging_angle| -
    (35.0 + (80.0 - 35.0) / (79.0 - 40.0) * (|gauging_angle| - 40.0))
  let X := (2 * Ma_exit - 1) / (2 * Ma_crit_exit - 1)
  let delta : ℝ :=
    if 1 ≤ Ma_exit then 0
    else if 0.5 ≤ Ma_exit ∧ Ma_exit < 1 then
      delta_0 * (1 - 10 * X ^ 3 + 15 * X ^ 4 - 6 * X ^ 5)
    else if Ma_exit < 0.5 then delta_0
    else junk
  |gauging_angle| - delta

end meanline

/-! ## Blockage model (`cascade_series.compute_blockage_boundary_layer`) -/

/-- The `throat_blockage` configuration option: the string
`'flat_plate_turbulent'`, a numeric value (every Python float is a
rational number), or Python `None` (constructor `null`).  Any other
value (a different string, a list, ...) falls into the source's
`ValueError` branch together with out-of-range numbers. -/
inductive BlockageOption where
  | flat_plate_turbulent : BlockageOption
  | num : ℚ → BlockageOption
  | null : BlockageOption

/-- Embeds `cascade_series.compute_blockage_boundary_layer`: the displacement
thickness is `0.048 / Re**(1/5) * 0.9 * chord` and the factor is
`2 * displacement_thickness / opening`; a numeric option in `[0, 1]` is
returned as is; `None` gives `0.00`; anything else raises `ValueError`
(embedded as `Except.error`). -/
noncomputable def compute_blockage_boundary_layer
    (throat_blockage : BlockageOption) (Re chord opening : ℝ) :
    Except String ℝ :=
  match throat_blockage with
  | .flat_plate_turbulent =>
      let displacement_thickness := 0.048 / Re ^ ((1 : ℝ) / 5) * 0.9 * chord
      .ok (2 * displacement_thickness / opening)
  | .num q =>
      if 0 ≤ q ∧ q ≤ 1 then .ok (q : ℝ)
      else .error "Invalid throat blockage option"
  | .null => .ok 0.00

/-! ## Property oracle and flow planes -/

/-- Full thermodynamic record returned by one call to the property
oracle (`fluid.get_props`); only the fields the embedded code reads are
kept. -/
structure FluidState where
  p : ℝ
  d : ℝ
  s : ℝ
  a : ℝ
  mu : ℝ
  gamma : ℝ

/-- The external property oracle, one field per input pair used by the
embedded functions (`CP.HmassSmass_INPUTS` and `CP.DmassHmass_INPUTS`). -/
structure PropertyOracle where
  props_hs : ℝ → ℝ → FluidState
  props_dh : ℝ → ℝ → FluidState

/-- Velocity-triangle dictionary shared by
`evaluate_velocity_triangle_in/out`. -/
structure VelocityTriangle where
  u : ℝ
  v : ℝ
  v_m : ℝ
  v_t : ℝ
  alpha : ℝ
  w : ℝ
  w_m : ℝ
  w_t : ℝ
  beta : ℝ

/-- Embeds `cascade_series.evaluate_velocity_triangle_out`. -/
noncomputable def evaluate_velocity_triangle_out (u w beta : ℝ) : VelocityTriangle :=
  let w_t := w * sind beta
  let w_m := w * cosd beta
  let v_t := w_t + u
  let v_m := w_m
  let v := Real.sqrt (v_t ^ 2 + v_m ^ 2)
  let alpha := arctand (v_t / v_m)
  { u := u, v := v, v_m := v_m, v_t := v_t, alpha := alpha,
    w := w, w_m := w_m, w_t := w_t, beta := beta }

/-- Exit/throat plane record assembled by
`cascade_series.evaluate_cascade_exit` (loss-model entries omitted:
they are produced by a separate dictionary merge and do not feed the
stored fields below). -/
structure ExitPlane where
  vel : VelocityTriangle
  h : ℝ
  h0 : ℝ
  h0_rel : ℝ
  Ma : ℝ
  Ma_rel : ℝ
  Re : ℝ
  mass_flow : ℝ
  rothalpy : ℝ
  blockage : ℝ

/-- Embeds `cascade_series.evaluate_cascade_exit` (used for both the throat and
the exit plane): static enthalpy `h = rothalpy + u²/2 - w²/2` from the
rothalpy carried over from the inlet, stagnation and relative-stagnation
enthalpies, Mach/Reynolds numbers, blockage-corrected mass flow
`rho * w_m * area * (1 - B)`, and the re-derived
`rothalpy = h0_rel - u²/2` stored in the plane.  The loss-model
evaluation performed afterwards by the source only fills the returned
loss dictionary and is omitted.  An invalid blockage option propagates
as the source's `ValueError`. -/
noncomputable def evaluate_cascade_exit
    (fluid : PropertyOracle)
    (w beta s rothalpy : ℝ)
    (chord opening : ℝ)
    (angular_speed radius area : ℝ)
    (blockage : BlockageOption) :
    Except String ExitPlane :=
  let blade_speed := angular_speed * radius
  let vel := evaluate_velocity_triangle_out blade_speed w beta
  let v := vel.v
  let w_m := vel.w_m
  let h := rothalpy + 0.5 * blade_speed ^ 2 - 0.5 * w ^ 2
  let static_properties := fluid.props_hs h s
  let rho := static_properties.d
  let mu := static_properties.mu
  let a := static_properties.a
  let h0 := h + 0.5 * v ^ 2
  let h0_rel := h + 0.5 * w ^ 2
  let Ma := v / a
  let Ma_rel := w / a
  let Re := rho * w * chord / mu
  let rothalpy_out := h0_rel - 0.5 * blade_speed ^ 2
  (compute_blockage_boundary_layer blockage Re chord opening).map
    (fun blockage_factor =>
      { vel := vel, h := h, h0 := h0, h0_rel := h0_rel, Ma := Ma,
        Ma_rel := Ma_rel, Re := Re,
        mass_flow := rho * w_m * area * (1 - blockage_factor),
        rothalpy := rothalpy_out, blockage := blockage_factor })

/-- Embeds `cascade_series.evaluate_cascade_interspace`: propagates the exit
state of row `i` to the inlet of row `i+1` and returns
`(h0_in, s_in, alpha_in, v_in)`.  The entropy comes from one oracle call
with the density/enthalpy input pair. -/
noncomputable def evaluate_cascade_interspace
    (fluid : PropertyOracle)
    (h0_exit v_m_exit v_t_exit rho_exit radius_exit area_exit
      radius_inlet area_inlet : ℝ) :
    ℝ × ℝ × ℝ × ℝ :=
  let h0_in := h0_exit
  let v_t_in := v_t_exit * radius_exit / radius_inlet
  let v_m_in := v_m_exit * area_exit / area_inlet
  let v_in := Real.sqrt (v_t_in ^ 2 + v_m_in ^ 2)
  let alpha_in := arctand (v_t_in / v_m_in)
  let h_in := h0_in - 0.5 * v_in ^ 2
  let rho_in := rho_exit
  let stagnation_properties := fluid.props_dh rho_in h_in
  let s_in := stagnation_properties.s
  (h0_in, s_in, alpha_in, v_in)

/-! ## Choking Mode C (`choking_model.evaluate_cascade_isentropic_throat`) -/

/-- Input dictionary handed to `flow_model.evaluate_cascade_throat`. -/
structure ThroatInput where
  w : ℝ
  s : ℝ
  beta : ℝ
  rothalpy : ℝ

/-- The throat-plane fields Mode C reads from the result of
`flow_model.evaluate_cascade_throat` (the `flow_model` module is not
under `src/`; the evaluation is abstracted as a function parameter). -/
structure ThroatPlaneResult where
  Ma_rel : ℝ
  mass_flow : ℝ

/-- Critical state reported by Mode C (real-valued twin of
`CriticalThroatState`). -/
structure CriticalStateModeC where
  Ma_rel : ℝ
  mass_flow : ℝ

/-- Embeds `choking_model.evaluate_cascade_isentropic_throat`: the throat is
evaluated at the inlet entropy with the cosine-rule flow angle
`sign(beta_exit) * arccos(A_throat/A_out)`, the reported critical state
is hard-coded to `{Ma_rel: 1.0, mass_flow: 2.7}`, and the residuals are
the throat mass balance and `Ma_rel_throat - min(Ma_rel_exit, 1)`.
Returns `((m_residual, choking_residual), critical_state)`. -/
noncomputable def evaluate_cascade_isentropic_throat
    (fm_evaluate_cascade_throat : ThroatInput → ThroatPlaneResult)
    (choking_w_throat : ℝ)
    (inlet_s inlet_rothalpy inlet_mass_flow : ℝ)
    (exit_beta exit_Ma_rel : ℝ)
    (A_throat A_out : ℝ)
    (v0 mass_flow_ref : ℝ) :
    (ℝ × ℝ) × CriticalStateModeC :=
  let cascade_throat_input : ThroatInput :=
    { w := choking_w_throat * v0
      s := inlet_s
      beta := Real.sign exit_beta * arccosd (A_throat / A_out)
      rothalpy := inlet_rothalpy }
  let throat_plane := fm_evaluate_cascade_throat cascade_throat_input
  let critical_state : CriticalStateModeC := { Ma_rel := 1.0, mass_flow := 2.7 }
  let choking_residual := throat_plane.Ma_rel - min exit_Ma_rel 1
  (((inlet_mass_flow - throat_plane.mass_flow) / mass_flow_ref, choking_residual),
    critical_state)

/-! ## Operating-point driver (`performance_analysis.compute_performance`)

The driver sweeps the operating points, warm-starting each root find
from the cached solution of the nearest previous point.  On any
exception it records `{"completed": False}` and appends the **empty
list** to `solution_data`; the nearest-neighbor search runs over *all*
previous points.  `compute_single_operation_point` (together with the
solver-data retrieval) is abstracted as an oracle `solve` returning the
scaled solution vector, or `none` when the computation raises. -/

/-- An operating point; `fluid_name` is omitted because
`get_operation_point_distance` skips non-numeric entries. -/
structure OperationPoint where
  p0_in : ℝ
  T0_in : ℝ
  p_out : ℝ
  alpha_in : ℝ
  omega : ℝ

/-- Per-coordinate relative deviation used by
`performance_analysis.get_operation_point_distance` for every key except
`alpha_in`: `|v1 - v2| / max(|v1|, |v2|, delta)`. -/
noncomputable def relative_deviation (v1 v2 delta : ℝ) : ℝ :=
  |v1 - v2| / max (max |v1| |v2|) delta

/-- Embeds `performance_analysis.get_operation_point_distance`: two-norm of the
per-key deviations, with `alpha_in` normalized by `pi/2`. -/
noncomputable def get_operation_point_distance
    (point_1 point_2 : OperationPoint) (delta : ℝ) : ℝ :=
  let deviation_array :=
    [relative_deviation point_1.p0_in point_2.p0_in delta,
     relative_deviation point_1.T0_in point_2.T0_in delta,
     relative_deviation point_1.p_out point_2.p_out delta,
     |point_1.alpha_in - point_2.alpha_in| / (Real.pi / 2),
     relative_deviation point_1.omega point_2.omega delta]
  Real.sqrt ((deviation_array.map (· ^ 2)).sum)

/-- Loop body of `performance_analysis.find_closest_operation_point`:
`min_distance` starts at `float("inf")` (modelled as `none`, which every
finite distance beats) and the closest solution vector and index are
updated whenever a strictly smaller distance is found. -/
noncomputable def closestLoop (current : OperationPoint) :
    List (OperationPoint × List ℝ) → ℕ → Option ℝ → Option (List ℝ) →
      Option ℕ → Option (List ℝ) × Option ℕ
  | [], _, _, closest_x, closest_index => (closest_x, closest_index)
  | (op_point, sol) :: rest, i, min_distance, closest_x, closest_index =>
      let distance := get_operation_point_distance current op_point 1e-8
      match min_distance with
      | none => closestLoop current rest (i + 1) (some distance) (some sol) (some i)
      | some m =>
          if distance < m then
            closestLoop current rest (i + 1) (some distance) (some sol) (some i)
          else
            closestLoop current rest (i + 1) (some m) closest_x closest_index

/-- Embeds `performance_analysis.find_closest_operation_point`: nearest-neighbor
lookup over the historical operation points and their cached solution
vectors (no filtering of failed points). -/
noncomputable def find_closest_operation_point (current_op_point : OperationPoint)
    (operation_points : List OperationPoint) (solution_data : List (List ℝ)) :
    Option (List ℝ) × Option ℕ :=
  closestLoop current_op_point
    (operation_points.zip solution_data) 0 none none none

/-- Accumulated per-point records of the driver loop:
`completed` mirrors the `solver_status["completed"]` flags, `solution_data`
the cached solution vectors (`[]` for a failed point), and `guesses` the
initial guess handed to `compute_single_operation_point` for each point
(`none` is Python `None`, the default heuristic guess). -/
structure DriverState where
  processed : List OperationPoint
  solution_data : List (List ℝ)
  completed : List Bool
  guesses : List (Option (List ℝ))

/-- The per-point loop of `performance_analysis.compute_performance`:
point 1 uses the default guess (`None`); every later point warm-starts
from the nearest previous point's cached vector; on failure the point is
recorded `completed = False` with the empty list cached, and the loop
continues with the next point. -/
noncomputable def compute_performance_loop
    (solve : OperationPoint → Option (List ℝ) → Option (List ℝ)) :
    List OperationPoint → DriverState → DriverState
  | [], st => st
  | operation_point :: rest, st =>
      let x0 : Option (List ℝ) :=
        if st.processed.isEmpty then none
        else
          (find_closest_operation_point operation_point
            st.processed st.solution_data).1
      match solve operation_point x0 with
      | some x =>
          compute_performance_loop solve rest
            { processed := st.processed ++ [operation_point]
              solution_data := st.solution_data ++ [x]
              completed := st.completed ++ [true]
              guesses := st.guesses ++ [x0] }
      | none =>
          compute_performance_loop solve rest
            { processed := st.processed ++ [operation_point]
              solution_data := st.solution_data ++ [[]]
              completed := st.completed ++ [false]
              guesses := st.guesses ++ [x0] }

/-- Embeds `performance_analysis.compute_performance` restricted to its driver
loop (configuration export and spreadsheet output omitted). -/
noncomputable def compute_performance
    (solve : OperationPoint → Option (List ℝ) → Option (List ℝ))
    (operation_points : List OperationPoint) : DriverState :=
  compute_performance_loop solve operation_points
    { processed := [], solution_data := [], completed := [], guesses := [] }

/-- First operating point of the C1 failing scenario (its computation
raises). -/
def op_point_a : OperationPoint :=
  { p0_in := 0, T0_in := 0, p_out := 0, alpha_in := 0, omega := 0 }

/-- Second operating point of the C1 failing scenario. -/
def op_point_b : OperationPoint :=
  { p0_in := 1, T0_in := 1, p_out := 1, alpha_in := 0, omega := 0 }

/-- Solve oracle of the C1 failing scenario: the computation of any
point with `p0_in = 0` raises (root finder failure inside the `try`
block); any other point is solved by the root finder unless the initial
guess is the empty placeholder, in which case `initialize_solver` raises
`ValueError("Initial guess must be an array or dictionary.")` before any
solve is attempted. -/
noncomputable def solve_c1 (p : OperationPoint) (x0 : Option (List ℝ)) :
    Option (List ℝ) :=
  if p.p0_in = 0 then none
  else if x0 = some ([] : List ℝ) then none
  else some [42]

end TurboFlow

open TurboFlow

/-! ## Claim theorems (algebraic part) -/

/-- C2, counterexample. At the concrete Jacobian `Jc2` (determinant 1)
the determinant-multiplied residual of the axial_turbine Mode A vanishes
but the division-form residual actually computed by the meanline Mode A
does not, because the meanline source divides the Cramer numerators by
`determinant + 1e-9`, not by the determinant.  This refutes the claimed
equivalence as stated against the code. -/
theorem c2_guarded_division_not_equivalent :
    determinant Jc2 ≠ 0 ∧ gradAxial Jc2 1 = 0 ∧ gradMeanline Jc2 1 ≠ 0 := by
  refine ⟨?_, ?_, ?_⟩ <;>
    norm_num [Jc2, gradAxial, gradMeanline, determinant, l1_det, l2_det,
      a11, a12, a21, a22, b1, b2, dfMid, dg1Mid, dg2Mid]

/-- C2, amended. For every 3x3 Jacobian whose 2x2 block determinant is
nonzero (and nonzero reference mass flow), the determinant-multiplied
Lagrangian residual of the axial_turbine Mode A is zero exactly when the
ideal division-form residual — the Cramer numerators divided by the exact
determinant, as the spec words it — is zero; no singular division is
needed in the former.  (The meanline source instead divides by
`determinant + 1e-9`, for which the equivalence fails; see the
counterexample.) -/
theorem c2_determinant_multiplied_equiv (J : Jacobian3) (mass_flow_ref : ℚ)
    (hdet : determinant J ≠ 0) (hm : mass_flow_ref ≠ 0) :
    gradAxial J mass_flow_ref = 0 ↔ gradDivisionSpec J mass_flow_ref = 0 := by
  unfold gradAxial gradDivisionSpec
  rw [div_eq_zero_iff, div_eq_zero_iff]
  constructor
  · rintro (h | h)
    · left
      have : determinant J * (dfMid J + l1_det J / determinant J * dg1Mid J +
          l2_det J / determinant J * dg2Mid J) =
          determinant J * dfMid J + l1_det J * dg1Mid J + l2_det J * dg2Mid J := by
        field_simp
        ring
      have hz : determinant J * (dfMid J + l1_det J / determinant J * dg1Mid J +
          l2_det J / determinant J * dg2Mid J) = 0 := by rw [this, h]
      rcases mul_eq_zero.mp hz with h' | h'
      · exact absurd h' hdet
      · exact h'
    · exact absurd h hm
  · rintro (h | h)
    · left
      have : determinant J * dfMid J + l1_det J * dg1Mid J + l2_det J * dg2Mid J =
          determinant J * (dfMid J + l1_det J / determinant J * dg1Mid J +
            l2_det J / determinant J * dg2Mid J) := by
        field_simp
        ring
      rw [this, h, mul_zero]
    · exact absurd h hm

/-- C2, witness. The equivalence instantiated at the concrete Jacobian
`Jc2` and `mass_flow_ref = 1`. -/
theorem c2_determinant_multiplied_equiv_witness :
    determinant Jc2 ≠ 0 ∧ (1 : ℚ) ≠ 0 ∧
      (gradAxial Jc2 1 = 0 ↔ gradDivisionSpec Jc2 1 = 0) := by
  have hdet : determinant Jc2 ≠ 0 := by
    norm_num [Jc2, determinant, a11, a12, a21, a22]
  exact ⟨hdet, one_ne_zero, c2_determinant_multiplied_equiv Jc2 1 hdet one_ne_zero⟩

/-- C5, counterexample. At the input `(p0, T0, Y) = (0, 0, 0)` the
surrogate returns `Ma_crit = 0.997808878` and `phi_max = 98.1120337`,
whereas the coefficient vectors listed in the spec would give exactly
`0.9978` and `98.11`: the spec's coefficients are roundings, not the
bit-for-bit code values. -/
theorem c5_spec_coefficients_are_roundings :
    (interpolate_critical_state 0 0 0).2 ≠ 9.978e-1 ∧
      (interpolate_critical_state 0 0 0).1 ≠ 9.811e1 := by
  constructor <;>
    norm_num [interpolate_critical_state, criticalBasis, coeff_mach_crit, coeff_phi_max]

/-- C5, amended. For every input `(p0, T0, Y)`, Mode B's surrogate
returns `Ma_crit = Σ cᵢ xᵢ` and `phi_max = Σ dᵢ xᵢ` over
`x = [1, p0, T0, Y, p0², T0², Y², p0*T0, p0*Y, T0*Y]` with the
full-precision coefficient vectors hard-coded in the source
(`c = [9.97808878e-1, ...]`, `d = [9.81120337e1, ...]`, of which the
spec's listed values are 3-4 significant-figure roundings), and the
reported critical mass flow equals `phi_max * A_throat`. -/
theorem c5_surrogate_polynomials (p0 T0 Y A_throat : ℚ) :
    (interpolate_critical_state p0 T0 Y).2 =
        9.97808878e-1 * 1 + (-8.59556818e-9) * p0 + 2.18283101e-5 * T0 +
        (-3.38413836e-1) * Y + (-4.89469816e-14) * p0 ^ 2 +
        (-5.99021408e-8) * T0 ^ 2 + 9.93519991e-2 * Y ^ 2 +
        7.71201115e-11 * (p0 * T0) + (-4.13346725e-9) * (p0 * Y) +
        4.91317761e-6 * (T0 * Y) ∧
      (interpolate_critical_state p0 T0 Y).1 =
        9.81120337e1 * 1 + 3.46299580e-3 * p0 + (-6.34357717e-1) * T0 +
        (-6.84234362e1) * Y + 1.05506996e-11 * p0 ^ 2 +
        1.04045797e-3 * T0 ^ 2 + 3.36231786e1 * Y ^ 2 +
        (-3.81019918e-6) * (p0 * T0) + (-6.90348074e-4) * (p0 * Y) +
        1.26692586e-1 * (T0 * Y) ∧
      (evaluate_cascade_throat_critical_state p0 T0 Y A_throat).mass_flow =
        (interpolate_critical_state p0 T0 Y).1 * A_throat ∧
      (evaluate_cascade_throat_critical_state p0 T0 Y A_throat).Ma_rel =
        (interpolate_critical_state p0 T0 Y).2 := by
  refine ⟨?_, ?_, rfl, rfl⟩ <;>
    · simp only [interpolate_critical_state, criticalBasis, coeff_mach_crit,
        coeff_phi_max, List.zipWith, List.sum_cons, List.sum_nil]
      ring

/-- C9. Loss additivity of the Benner model: whatever the five
correlation sub-functions and the penetration-depth fraction return, the
reported total equals the sum of the five reported components (the
profile, incidence and trailing entries being the ones already multiplied
by `1 - ZTE`). -/
theorem c9_loss_additivity (Y_p Y_te Y_s Y_cl Y_inc ZTE : ℚ) :
    (compute_losses Y_p Y_te Y_s Y_cl Y_inc ZTE).loss_total =
      (compute_losses Y_p Y_te Y_s Y_cl Y_inc ZTE).loss_profile +
      (compute_losses Y_p Y_te Y_s Y_cl Y_inc ZTE).loss_incidence +
      (compute_losses Y_p Y_te Y_s Y_cl Y_inc ZTE).loss_trailing +
      (compute_losses Y_p Y_te Y_s Y_cl Y_inc ZTE).loss_secondary +
      (compute_losses Y_p Y_te Y_s Y_cl Y_inc ZTE).loss_clearance := by
  simp only [compute_losses]
  ring

/-! ## Claim theorems (deviation models) -/

/-- Helper: the degree-valued arc cosine of `1/2` is `60`. -/
theorem arccosd_one_half : arccosd (1 / 2) = 60 := by
  have h : Real.arccos (1 / 2) = Real.pi / 3 := by
    rw [← Real.cos_pi_div_three]
    exact Real.arccos_cos (by positivity) (by linarith [Real.pi_pos])
  rw [arccosd, h]
  field_simp
  ring

/-- C3 (code bug evaluation). In the Ainley–Mathieson model of the
axial_turbine module, for `Ma_crit = 0.9` and `Ma_exit = 0.95` (inside
the gap `Ma_crit <= Ma_exit < 1` that no mask covers, although the
function's own docstring promises zero deviation for
`Ma_exit >= Ma_crit`) the returned angle is `|gauging| - junk`, i.e. it
depends on the uninitialized contents of `np.empty_like`: two different
memory contents give two different answers, only one of which is the
gauging angle `arccos(A_throat/A_out) = 60°` that the claim requires. -/
theorem c3_ainley_supersonic_gap_reads_uninitialized_memory :
    axial_turbine.get_exit_flow_angle_ainley_mathieson 1 0.95 0.9 1 2 = 59 ∧
      axial_turbine.get_exit_flow_angle_ainley_mathieson 0 0.95 0.9 1 2 = 60 := by
  have hg : arccosd (1 / 2) = 60 := arccosd_one_half
  constructor <;>
  · simp only [axial_turbine.get_exit_flow_angle_ainley_mathieson]
    rw [hg]
    norm_num

/-- C4, counterexample. At `Ma_exit = 0.6`, `Ma_crit = 1`,
`A_throat/A_out = 1/2`, the Ainley–Mathieson model of the axial_turbine
module does **not** return the fifth-order polynomial blend asserted by
the claim: the source interpolates linearly
(`delta_0 * (1 + (0.5 - Ma)/(Ma_crit - 0.5))`), so the two values differ
(`60 - 20/13` versus `60 - 2944/1625`). -/
theorem c4_axial_ainley_is_linear_not_polynomial :
    axial_turbine.get_exit_flow_angle_ainley_mathieson 0 0.6 1 1 2 ≠
      |arccosd (1 / 2)| -
        (|arccosd (1 / 2)| -
            (35.0 + (80.0 - 35.0) / (79.0 - 40.0) * (|arccosd (1 / 2)| - 40.0))) *
          (1 - 10 * ((2 * 0.6 - 1) / (2 * 1 - 1)) ^ 3
             + 15 * ((2 * 0.6 - 1) / (2 * 1 - 1)) ^ 4
             - 6 * ((2 * 0.6 - 1) / (2 * 1 - 1)) ^ 5) := by
  have hg : arccosd (1 / 2) = 60 := arccosd_one_half
  simp only [axial_turbine.get_exit_flow_angle_ainley_mathieson]
  rw [hg]
  norm_num

/-- C4, amended. In the transonic range `0.5 <= Ma_exit < Ma_crit`
(with `Ma_crit <= 1`), the axial_turbine Ainley–Mathieson model applies a
**linear** interpolation `delta_0 * (1 + (0.5 - Ma)/(Ma_crit - 0.5))` of
its low-speed deviation `delta_0` (computed from the gauging angle
`arccos(A_throat/A_out)`), while the meanline module's version applies
the fifth-order polynomial blend
`delta_0 * (1 - 10X^3 + 15X^4 - 6X^5)` with
`X = (2 Ma - 1)/(2 Ma_crit - 1)` and `delta_0` computed from the
trailing-edge metal angle. -/
theorem c4_ainley_transonic_forms
    (junk Ma_exit Ma_crit A_throat A_out Ma_crit_throat theta_te : ℝ)
    (h1 : 0.5 ≤ Ma_exit) (h2 : Ma_exit < Ma_crit) (h3 : Ma_crit ≤ 1) :
    axial_turbine.get_exit_flow_angle_ainley_mathieson
        junk Ma_exit Ma_crit A_throat A_out =
      |arccosd (A_throat / A_out)| -
        (|arccosd (A_throat / A_out)| -
            (35.0 + (80.0 - 35.0) / (79.0 - 40.0) *
              (|arccosd (A_throat / A_out)| - 40.0))) *
          (1 + (0.5 - Ma_exit) / (Ma_crit - 0.5)) ∧
    meanline.get_exit_flow_angle_ainley_mathieson
        junk Ma_exit Ma_crit_throat Ma_crit theta_te =
      |theta_te| -
        (|theta_te| - (35.0 + (80.0 - 35.0) / (79.0 - 40.0) * (|theta_te| - 40.0))) *
          (1 - 10 * ((2 * Ma_exit - 1) / (2 * Ma_crit - 1)) ^ 3
             + 15 * ((2 * Ma_exit - 1) / (2 * Ma_crit - 1)) ^ 4
             - 6 * ((2 * Ma_exit - 1) / (2 * Ma_crit - 1)) ^ 5) := by
  have hlt1 : Ma_exit < 1 := lt_of_lt_of_le h2 h3
  constructor
  · simp only [axial_turbine.get_exit_flow_angle_ainley_mathieson]
    rw [if_neg (not_le.mpr hlt1), if_pos ⟨h1, h2⟩]
  · simp only [meanline.get_exit_flow_angle_ainley_mathieson]
    rw [if_neg (not_le.mpr hlt1), if_pos ⟨h1, hlt1⟩]

/-- C4, witness. The two transonic forms instantiated at
`Ma_exit = 0.6`, `Ma_crit = 0.9`, `A_throat = 1`, `A_out = 2`,
`Ma_crit_throat = 0.7`, `metal_angle_te = 60`. -/
theorem c4_ainley_transonic_forms_witness :
    (0.5 : ℝ) ≤ 0.6 ∧ (0.6 : ℝ) < 0.9 ∧ (0.9 : ℝ) ≤ 1 ∧
    (axial_turbine.get_exit_flow_angle_ainley_mathieson 0 0.6 0.9 1 2 =
      |arccosd ((1 : ℝ) / 2)| -
        (|arccosd ((1 : ℝ) / 2)| -
            (35.0 + (80.0 - 35.0) / (79.0 - 40.0) *
              (|arccosd ((1 : ℝ) / 2)| - 40.0))) *
          (1 + (0.5 - 0.6) / (0.9 - 0.5)) ∧
    meanline.get_exit_flow_angle_ainley_mathieson 0 0.6 0.7 0.9 60 =
      |(60 : ℝ)| -
        (|(60 : ℝ)| - (35.0 + (80.0 - 35.0) / (79.0 - 40.0) * (|(60 : ℝ)| - 40.0))) *
          (1 - 10 * ((2 * 0.6 - 1) / (2 * 0.9 - 1)) ^ 3
             + 15 * ((2 * 0.6 - 1) / (2 * 0.9 - 1)) ^ 4
             - 6 * ((2 * 0.6 - 1) / (2 * 0.9 - 1)) ^ 5)) :=
  ⟨by norm_num, by norm_num, by norm_num,
    c4_ainley_transonic_forms 0 0.6 0.9 1 2 0.7 60
      (by norm_num) (by norm_num) (by norm_num)⟩

/-! ## Claim theorems (blockage, planes, Mode C, driver) -/

/-- C6. `compute_blockage_boundary_layer` case analysis:
`'flat_plate_turbulent'` gives `2 * (0.048 * Re^(-1/5) * 0.9 * chord) / opening`;
a numeric option in `[0, 1]` is returned unchanged (so `B = 0` yields
exactly `0`); `None` gives `0`; every other option value raises
`ValueError`. -/
theorem c6_blockage_boundary_layer_cases :
    (∀ Re chord opening : ℝ, 0 < Re →
      compute_blockage_boundary_layer .flat_plate_turbulent Re chord opening =
        .ok (2 * (0.048 * Re ^ (-(1 : ℝ) / 5) * 0.9 * chord) / opening)) ∧
    (∀ (q : ℚ) (Re chord opening : ℝ), 0 ≤ q → q ≤ 1 →
      compute_blockage_boundary_layer (.num q) Re chord opening = .ok (q : ℝ)) ∧
    (∀ Re chord opening : ℝ,
      compute_blockage_boundary_layer .null Re chord opening = .ok 0) ∧
    (∀ (q : ℚ) (Re chord opening : ℝ), ¬(0 ≤ q ∧ q ≤ 1) →
      compute_blockage_boundary_layer (.num q) Re chord opening =
        .error "Invalid throat blockage option") := by
  refine ⟨?_, ?_, ?_, ?_⟩
  · intro Re chord opening hRe
    simp only [compute_blockage_boundary_layer]
    refine congrArg Except.ok ?_
    rw [neg_div, Real.rpow_neg hRe.le]
    ring
  · intro q Re chord opening h0 h1
    simp only [compute_blockage_boundary_layer]
    rw [if_pos ⟨h0, h1⟩]
  · intro Re chord opening
    simp only [compute_blockage_boundary_layer]
    exact congrArg Except.ok (by norm_num)
  · intro q Re chord opening h
    simp only [compute_blockage_boundary_layer]
    rw [if_neg h]

/-- C6, witness. The four cases instantiated at `Re = chord =
opening = 1` and the numeric options `1/2` (in range) and `2` (out of
range). -/
theorem c6_blockage_boundary_layer_cases_witness :
    (0 : ℝ) < 1 ∧
    compute_blockage_boundary_layer .flat_plate_turbulent 1 1 1 =
      .ok (2 * (0.048 * (1 : ℝ) ^ (-(1 : ℝ) / 5) * 0.9 * 1) / 1) ∧
    (0 : ℚ) ≤ 1 / 2 ∧ (1 / 2 : ℚ) ≤ 1 ∧
    compute_blockage_boundary_layer (.num (1 / 2)) 1 1 1 = .ok ((1 / 2 : ℚ) : ℝ) ∧
    compute_blockage_boundary_layer .null 1 1 1 = .ok 0 ∧
    ¬((0 : ℚ) ≤ 2 ∧ (2 : ℚ) ≤ 1) ∧
    compute_blockage_boundary_layer (.num 2) 1 1 1 =
      .error "Invalid throat blockage option" :=
  ⟨by norm_num,
    c6_blockage_boundary_layer_cases.1 1 1 1 (by norm_num),
    by norm_num, by norm_num,
    c6_blockage_boundary_layer_cases.2.1 (1 / 2) 1 1 1 (by norm_num) (by norm_num),
    c6_blockage_boundary_layer_cases.2.2.1 1 1 1,
    by norm_num,
    c6_blockage_boundary_layer_cases.2.2.2 2 1 1 1 (by norm_num)⟩

/-- Helper: a constant-valued field survives the `Except.map` in
`evaluate_cascade_exit`. -/
theorem except_map_rothalpy_const (E : Except String ℝ) (f : ℝ → ExitPlane)
    (c : ℝ) (h : ∀ b, (f b).rothalpy = c) :
    (E.map f).map (fun plane => plane.rothalpy) = (E.map f).map (fun _ => c) := by
  cases E <;> simp [Except.map, h]

/-- C7. Rothalpy is conserved by construction in
`evaluate_cascade_exit`: whatever the property oracle returns, the
rothalpy stored in the returned plane (`h0_rel - u²/2` with
`h = rothalpy_in + u²/2 - w²/2` and `h0_rel = h + w²/2`) equals the
rothalpy passed in `cascade_exit_input`, for the throat and exit planes
alike. -/
theorem c7_rothalpy_conserved (fluid : PropertyOracle)
    (w beta s rothalpy chord opening angular_speed radius area : ℝ)
    (blockage : BlockageOption) :
    (evaluate_cascade_exit fluid w beta s rothalpy chord opening
        angular_speed radius area blockage).map (fun plane => plane.rothalpy) =
      (evaluate_cascade_exit fluid w beta s rothalpy chord opening
        angular_speed radius area blockage).map (fun _ => rothalpy) := by
  simp only [evaluate_cascade_exit]
  refine except_map_rothalpy_const _ _ _ ?_
  intro b
  ring

/-- C8. `evaluate_cascade_interspace` satisfies: stagnation enthalpy
is preserved; the velocity magnitude is assembled from
`v_t_in = v_t_exit * r_exit / r_in` (angular momentum `r*v_t` preserved)
and `v_m_in = v_m_exit * A_exit / A_in`; the flow angle is
`arctan(v_t_in / v_m_in)` in degrees; density is taken unchanged, the
returned entropy being the oracle's value at
`(rho_exit, h0_in - v_in²/2)`. -/
theorem c8_interspace_conservation (fluid : PropertyOracle)
    (h0_exit v_m_exit v_t_exit rho_exit radius_exit area_exit
      radius_inlet area_inlet : ℝ) :
    (evaluate_cascade_interspace fluid h0_exit v_m_exit v_t_exit rho_exit
        radius_exit area_exit radius_inlet area_inlet).1 = h0_exit ∧
    (evaluate_cascade_interspace fluid h0_exit v_m_exit v_t_exit rho_exit
        radius_exit area_exit radius_inlet area_inlet).2.2.2 =
      Real.sqrt ((v_t_exit * radius_exit / radius_inlet) ^ 2 +
        (v_m_exit * area_exit / area_inlet) ^ 2) ∧
    (evaluate_cascade_interspace fluid h0_exit v_m_exit v_t_exit rho_exit
        radius_exit area_exit radius_inlet area_inlet).2.2.1 =
      arctand ((v_t_exit * radius_exit / radius_inlet) /
        (v_m_exit * area_exit / area_inlet)) ∧
    (evaluate_cascade_interspace fluid h0_exit v_m_exit v_t_exit rho_exit
        radius_exit area_exit radius_inlet area_inlet).2.1 =
      (fluid.props_dh rho_exit (h0_exit - (1 / 2) *
        (Real.sqrt ((v_t_exit * radius_exit / radius_inlet) ^ 2 +
          (v_m_exit * area_exit / area_inlet) ^ 2)) ^ 2)).s := by
  refine ⟨rfl, rfl, rfl, ?_⟩
  simp only [evaluate_cascade_interspace]
  norm_num

/-- C10. Choking Mode C reports a critical state whose relative Mach
number is the constant `1.0` and whose critical mass flow is the
hard-coded constant `2.7`, for every throat evaluator, choking input,
inlet and exit state, geometry and reference values. -/
theorem c10_mode_c_constant_critical_state
    (fm : ThroatInput → ThroatPlaneResult)
    (choking_w_throat inlet_s inlet_rothalpy inlet_mass_flow
      exit_beta exit_Ma_rel A_throat A_out v0 mass_flow_ref : ℝ) :
    (evaluate_cascade_isentropic_throat fm choking_w_throat inlet_s
        inlet_rothalpy inlet_mass_flow exit_beta exit_Ma_rel A_throat A_out
        v0 mass_flow_ref).2.Ma_rel = 1.0 ∧
    (evaluate_cascade_isentropic_throat fm choking_w_throat inlet_s
        inlet_rothalpy inlet_mass_flow exit_beta exit_Ma_rel A_throat A_out
        v0 mass_flow_ref).2.mass_flow = 2.7 :=
  ⟨rfl, rfl⟩

/-- C1 (code bug evaluation). In the two-point scenario where the
first point's computation raises: the driver does record
`completed = False` for it and continues, **but** it caches the empty
placeholder `[]` and `find_closest_operation_point` does not exclude
failed points, so the second point's nearest-neighbor initial guess is
exactly that empty placeholder (not the solution vector of a
successfully solved point); handing it to `initialize_solver` then
raises `ValueError`, so the second point fails too. -/
theorem c1_failed_point_placeholder_poisons_warm_start :
    (compute_performance solve_c1 [op_point_a, op_point_b]).completed =
        [false, false] ∧
    (compute_performance solve_c1 [op_point_a, op_point_b]).guesses =
        [none, some []] ∧
    (compute_performance solve_c1 [op_point_a, op_point_b]).solution_data =
        [[], []] := by
  refine ⟨?_, ?_, ?_⟩ <;>
    simp [compute_performance, compute_performance_loop, solve_c1,
      find_closest_operation_point, closestLoop, op_point_a, op_point_b,
      List.zip]
